import Mathlib

/-!
Shallow embedding of the OpenVAS scan-orchestration scripts
(scripts/run_openvas_scan.py and scripts/hoge.py).

Protocol responses are modelled as plain data: a get_task response is the
list of its task/status text nodes, task/progress text nodes and
task/last_report/report id attributes; a get_report response is the list
of its report nodes.  Each stage of main() becomes a function returning an
Outcome: ok (normal continuation), exit1 (a sys.exit(1) taken through the
documented error taxonomy), exception (an unhandled Python exception such
as an IndexError from indexing an empty XPath result), or incomplete (the
modelled response stream ran out while a polling loop was still waiting,
standing for the unbounded wait).
-/

/-- Error taxonomy of the scripts: every `sys.exit(1)` site in main(). -/
inductive Err where
  | noPortLists
  | targetCreateFailed
  | taskCreateFailed
  | taskStoppedBeforeReport
  | noReportNodes
  | noBase64Payload
  | base64DecodeError
deriving DecidableEq, Repr

/-- Result of a stage of the run. -/
inductive Outcome (α : Type) where
  | ok : α → Outcome α
  | exit1 : Err → Outcome α
  | exception : Outcome α
  | incomplete : Outcome α
deriving DecidableEq, Repr

/-- Sequencing of stages: a failure aborts the rest of the run. -/
def Outcome.bind {α β : Type} (x : Outcome α) (f : α → Outcome β) : Outcome β :=
  match x with
  | Outcome.ok a => f a
  | Outcome.exit1 e => Outcome.exit1 e
  | Outcome.exception => Outcome.exception
  | Outcome.incomplete => Outcome.incomplete

/-- A get_task response, reduced to the pieces main() reads:
the text nodes matched by task/status/text() and task/progress/text(),
and the id attributes matched by task/last_report/report/@id. -/
structure TaskResp where
  statusTexts : List String
  progressTexts : List String
  lastReportIds : List String
deriving DecidableEq, Repr

/-- A report node of a get_report response: its direct text (node.text,
absent when the node has none) and the concatenation of all its
descendant texts (what itertext() yields). -/
structure ReportNode where
  text : Option (List Char)
  allText : List Char
deriving DecidableEq, Repr

/-- Port-list resolution of run_openvas_scan.py lines 47-57: take the ids
of the name-filtered get_port_lists response; if empty, fall back to the
ids of an unfiltered get_port_lists response; if still empty, exit 1. -/
def resolvePortList (filtered unfiltered : List String) : Outcome String :=
  match filtered with
  | i :: _ => Outcome.ok i
  | [] =>
    match unfiltered with
    | i :: _ => Outcome.ok i
    | [] => Outcome.exit1 Err.noPortLists

/-- Port-list resolution of hoge.py lines 38-48.  The fallback branch
calls gmp.get_port_list() but assigns the re-read ids to the misspelled
variable ort_list_ids, re-running the XPath on the OLD filtered response;
the test that follows still sees the filtered (empty) port_list_ids, so
the unfiltered response is never consulted. -/
def resolvePortList_hoge (filtered _unfiltered : List String) : Outcome String :=
  match filtered with
  | i :: _ => Outcome.ok i
  | [] => Outcome.exit1 Err.noPortLists

/-- Creation branch of target resolution (both scripts): read the id
attribute of the create_target response; a missing or empty id is a hard
failure.  The returned flag true records that a new object was created. -/
def createTargetStep (createId : Option String) : Outcome (String × Bool) :=
  match createId with
  | some i => if i = "" then Outcome.exit1 Err.targetCreateFailed else Outcome.ok (i, true)
  | none => Outcome.exit1 Err.targetCreateFailed

/-- Target resolution (run_openvas_scan.py lines 64-84, hoge.py 54-72):
the loop `for t in targets.xpath("target"): target_id = t.get("id")`
leaves target_id holding the id attribute of the LAST matched node (or
None when there is no match); a truthy id is reused, otherwise a new
target is created.  Inputs: the optional id attribute of each matched
target node, and the optional id of the create_target response. -/
def resolveTarget (targets : List (Option String)) (createId : Option String) :
    Outcome (String × Bool) :=
  match targets.foldl (fun _ t => t) none with
  | some tid => if tid = "" then createTargetStep createId else Outcome.ok (tid, false)
  | none => createTargetStep createId

/-- Task creation (both scripts): read the id of the create_task
response; missing or empty id exits 1. -/
def createTaskStep (createId : Option String) : Outcome String :=
  match createId with
  | some i => if i = "" then Outcome.exit1 Err.taskCreateFailed else Outcome.ok i
  | none => Outcome.exit1 Err.taskCreateFailed

/-- Result of the report-id discovery loop. -/
inductive DiscResult where
  | found (reportId : String) (polls sleeps : Nat)
  | stopped (polls sleeps : Nat)
  | exception (polls : Nat)
  | exhausted
deriving DecidableEq, Repr

/-- Report-id discovery loop (run_openvas_scan.py lines 126-141): each
iteration fetches the task, indexes task/status/text()[0] (raising when
the response has no status text), reads task/last_report/report/@id,
breaks when an id is present, exits 1 when the status is Stopped or
Interrupted, and otherwise sleeps and retries.  The accumulators count
get_task calls made and sleeps taken. -/
def discoverGo : List TaskResp → Nat → Nat → DiscResult
  | [], _, _ => DiscResult.exhausted
  | r :: rest, polls, sleeps =>
    match r.statusTexts with
    | [] => DiscResult.exception (polls + 1)
    | st :: _ =>
      match r.lastReportIds with
      | rid :: _ => DiscResult.found rid (polls + 1) sleeps
      | [] =>
        if st = "Stopped" ∨ st = "Interrupted" then DiscResult.stopped (polls + 1) sleeps
        else discoverGo rest (polls + 1) (sleeps + 1)

/-- Report-id resolution (run_openvas_scan.py lines 113-144): use the
first .//report/@id of the start_task response when present, otherwise
enter the discovery loop; report_id is then report_ids[0]. -/
def discoverOut (startIds : List String) (resps : List TaskResp) : Outcome String :=
  match startIds with
  | i :: _ => Outcome.ok i
  | [] =>
    match discoverGo resps 0 0 with
    | DiscResult.found rid _ _ => Outcome.ok rid
    | DiscResult.stopped _ _ => Outcome.exit1 Err.taskStoppedBeforeReport
    | DiscResult.exception _ => Outcome.exception
    | DiscResult.exhausted => Outcome.incomplete

/-- Result of the status-polling loop. -/
inductive PollResult where
  | terminal (status : String) (polls sleeps : Nat)
  | exception (polls : Nat)
  | exhausted
deriving DecidableEq, Repr

/-- Status-polling loop (run_openvas_scan.py lines 147-156): each
iteration fetches the task, indexes task/status/text()[0] and
task/progress/text()[0] (raising when either list is empty), breaks when
the status is Done, Stopped or Interrupted, and otherwise sleeps and
retries. -/
def pollGo : List TaskResp → Nat → Nat → PollResult
  | [], _, _ => PollResult.exhausted
  | r :: rest, polls, sleeps =>
    match r.statusTexts with
    | [] => PollResult.exception (polls + 1)
    | st :: _ =>
      match r.progressTexts with
      | [] => PollResult.exception (polls + 1)
      | _ :: _ =>
        if st = "Done" ∨ st = "Stopped" ∨ st = "Interrupted" then
          PollResult.terminal st (polls + 1) sleeps
        else pollGo rest (polls + 1) (sleeps + 1)

/-- The status poller as a stage of the run. -/
def pollOut (resps : List TaskResp) : Outcome String :=
  match pollGo resps 0 0 with
  | PollResult.terminal s _ _ => Outcome.ok s
  | PollResult.exception _ => Outcome.exception
  | PollResult.exhausted => Outcome.incomplete

/-- Strip of leading and trailing whitespace, as str.strip() does on the
ASCII texts that occur here. -/
def pyStrip (s : List Char) : List Char :=
  ((s.dropWhile Char.isWhitespace).reverse.dropWhile Char.isWhitespace).reverse

/-- Character test of the plausibility check in run_openvas_scan.py line
194: c.isalnum() or c in "+/=". -/
def isB64Char (c : Char) : Bool :=
  c.isAlphanum || c == '+' || c == '/' || c == '='

/-- Base64-plausibility predicate of run_openvas_scan.py line 194:
len(candidate) > 200 and all characters alphanumeric or in "+/=". -/
def plausibleB64 (s : List Char) : Bool :=
  decide (200 < s.length) && s.all isB64Char

/-- Scan of the report nodes (run_openvas_scan.py lines 189-196): for
each node in order, when node.text is present and strips to a non-empty
candidate, accept the candidate if it is plausible base64, otherwise move
on to the next node. -/
def findB64 : List (Option (List Char)) → Option (List Char)
  | [] => none
  | t :: rest =>
    match t with
    | none => findB64 rest
    | some txt =>
      if txt ≠ [] ∧ pyStrip txt ≠ [] then
        if plausibleB64 (pyStrip txt) then some (pyStrip txt) else findB64 rest
      else findB64 rest

/-- The standard base64 alphabet, value order. -/
def b64Alphabet : List Char :=
  "ABCDEFGHIJKLMNOPQRSTUVWXYZabcdefghijklmnopqrstuvwxyz0123456789+/".data

/-- Character of a 6-bit value. -/
def sextetToChar (v : Nat) : Char :=
  b64Alphabet.getD v 'A'

/-- Position of a character in the alphabet, scanning from index i. -/
def alphaIdx (c : Char) : List Char → Nat → Option Nat
  | [], _ => none
  | a :: l, i => if a = c then some i else alphaIdx c l (i + 1)

/-- 6-bit value of a base64 character, none for characters outside the
alphabet (padding included). -/
def charToSextet (c : Char) : Option Nat :=
  alphaIdx c b64Alphabet 0

/-- base64.b64encode on a byte list: 3-byte groups become 4 characters,
a trailing 1- or 2-byte group is padded with = signs. -/
def b64EncodeGo : List Nat → List Char
  | [] => []
  | [b0] =>
    [sextetToChar (b0 / 4), sextetToChar (b0 % 4 * 16), '=', '=']
  | [b0, b1] =>
    [sextetToChar (b0 / 4), sextetToChar (b0 % 4 * 16 + b1 / 16),
     sextetToChar (b1 % 16 * 4), '=']
  | b0 :: b1 :: b2 :: rest =>
    sextetToChar (b0 / 4) :: sextetToChar (b0 % 4 * 16 + b1 / 16) ::
    sextetToChar (b1 % 16 * 4 + b2 / 64) :: sextetToChar (b2 % 64) ::
    b64EncodeGo rest

/-- base64.b64decode on alphabet-clean input: the length must be a
multiple of 4; each 4-character group yields 3 bytes, or fewer for a
final padded group; characters outside the alphabet (misplaced padding
included) and data after a padded group are decode failures. -/
def b64DecodeGo : List Char → Option (List Nat)
  | [] => some []
  | c1 :: c2 :: c3 :: c4 :: rest =>
    match charToSextet c1, charToSextet c2 with
    | some v1, some v2 =>
      if c3 = '=' then
        if c4 = '=' ∧ rest = [] then some [v1 * 4 + v2 / 16] else none
      else
        match charToSextet c3 with
        | some v3 =>
          if c4 = '=' then
            if rest = [] then some [v1 * 4 + v2 / 16, v2 % 16 * 16 + v3 / 4] else none
          else
            match charToSextet c4 with
            | some v4 =>
              (b64DecodeGo rest).map
                (fun bs => (v1 * 4 + v2 / 16) :: (v2 % 16 * 16 + v3 / 4) :: (v3 % 4 * 64 + v4) :: bs)
            | none => none
        | none => none
    | _, _ => none
  | _ => none

/-- PDF payload extraction of run_openvas_scan.py lines 182-208: fail
when the response has no report nodes; scan the nodes for a plausible
base64 text; base64-decode the first hit.  Input: node.text of each
report node in document order. -/
def extractPdf (nodeTexts : List (Option (List Char))) : Outcome (List Nat) :=
  match nodeTexts with
  | [] => Outcome.exit1 Err.noReportNodes
  | _ :: _ =>
    match findB64 nodeTexts with
    | none => Outcome.exit1 Err.noBase64Payload
    | some cand =>
      match b64DecodeGo cand with
      | some bytes => Outcome.ok bytes
      | none => Outcome.exit1 Err.base64DecodeError

/-- The string "JVBER" that hoge.py searches for (the base64 spelling of
a PDF header). -/
def jvberPat : List Char := ['J', 'V', 'B', 'E', 'R']

/-- full_text[start_index:] for start_index = full_text.find("JVBER"):
the suffix of the text from the first occurrence of the pattern, none
when the pattern does not occur. -/
def dropBeforeJVBER : List Char → Option (List Char)
  | [] => none
  | c :: rest =>
    if jvberPat.isPrefixOf (c :: rest) then some (c :: rest)
    else dropBeforeJVBER rest

/-- PDF payload extraction of hoge.py lines 138-158: fail when the
response has no report nodes; join the itertext of the FIRST node and
strip it; find the first "JVBER"; strip the suffix from there and
base64-decode it. -/
def extractPdf_hoge (nodes : List ReportNode) : Outcome (List Nat) :=
  match nodes with
  | [] => Outcome.exit1 Err.noReportNodes
  | n :: _ =>
    match dropBeforeJVBER (pyStrip n.allText) with
    | none => Outcome.exit1 Err.noBase64Payload
    | some tl =>
      match b64DecodeGo (pyStrip tl) with
      | some bytes => Outcome.ok bytes
      | none => Outcome.exit1 Err.base64DecodeError

/-- The protocol responses one invocation of main() observes, in the
order the script requests them. -/
structure Oracle where
  portListsFiltered : List String
  portListsAll : List String
  targetIds : List (Option String)
  createTargetId : Option String
  createTaskId : Option String
  startReportIds : List String
  discResps : List TaskResp
  pollResps : List TaskResp
  reportNodes : List ReportNode
deriving Repr

/-- The stages of main() up to and including report-id resolution:
authenticate (cannot fail in-model), resolve the port list, resolve or
create the target, create the task, start it and resolve the report id. -/
def preReportStages (o : Oracle) : Outcome String :=
  Outcome.bind (resolvePortList o.portListsFiltered o.portListsAll) (fun _ =>
  Outcome.bind (resolveTarget o.targetIds o.createTargetId) (fun _ =>
  Outcome.bind (createTaskStep o.createTaskId) (fun _ =>
  discoverOut o.startReportIds o.discResps)))

/-- The report stage of main(): fetch the report, extract and decode the
PDF payload and name the output file {dir}/{report_id}.pdf. -/
def reportStage (dir : String) (o : Oracle) (rid : String) : Outcome (String × List Nat) :=
  Outcome.bind (extractPdf (o.reportNodes.map ReportNode.text)) (fun bytes =>
  Outcome.ok (dir ++ "/" ++ rid ++ ".pdf", bytes))

/-- One full run of run_openvas_scan.py main(): the pre-report stages,
the status-polling loop (whose terminal status is not inspected
afterwards), then the report stage. -/
def runScan (dir : String) (o : Oracle) : Outcome (String × List Nat) :=
  Outcome.bind (preReportStages o) (fun rid =>
  Outcome.bind (pollOut o.pollResps) (fun _ => reportStage dir o rid))

/-- The output files a run leaves behind: the script opens and writes its
single output file only after every stage has succeeded, so a run writes
exactly the file of a successful outcome and nothing otherwise. -/
def runWrites (dir : String) (o : Oracle) : List (String × List Nat) :=
  match runScan dir o with
  | Outcome.ok f => [f]
  | _ => []

/-- A concrete oracle: every lookup succeeds directly, the start response
carries the report id, polling sees Running then Stopped, and the report
node holds a long plausible base64 text. -/
def oW : Oracle :=
  { portListsFiltered := ["pl1"]
    portListsAll := []
    targetIds := [some "t1"]
    createTargetId := none
    createTaskId := some "j1"
    startReportIds := ["r1"]
    discResps := []
    pollResps := [⟨["Running"], ["10"], []⟩, ⟨["Stopped"], ["55"], []⟩]
    reportNodes := [⟨some (List.replicate 204 'A'), List.replicate 204 'A'⟩] }

/-! ### Helper lemmas -/

theorem getD_mem_or_default {α : Type} : ∀ (l : List α) (n : Nat) (d : α),
    l.getD n d ∈ l ∨ l.getD n d = d
  | [], _, _ => Or.inr rfl
  | a :: l, 0, _ => Or.inl (List.mem_cons_self a l)
  | _ :: l, n + 1, d =>
    match getD_mem_or_default l n d with
    | Or.inl h => Or.inl (List.mem_cons_of_mem _ h)
    | Or.inr h => Or.inr h

theorem alphaValid : ∀ c ∈ b64Alphabet, isB64Char c = true := by decide

theorem alphaNotWs : ∀ c ∈ b64Alphabet, c.isWhitespace = false := by decide

theorem sextetToChar_valid (v : Nat) :
    isB64Char (sextetToChar v) = true ∧ (sextetToChar v).isWhitespace = false := by
  unfold sextetToChar
  rcases getD_mem_or_default b64Alphabet v 'A' with h | h
  · exact ⟨alphaValid _ h, alphaNotWs _ h⟩
  · rw [h]; exact ⟨by decide, by decide⟩

theorem sextetToChar_ne_pad (v : Nat) : sextetToChar v ≠ '=' := by
  unfold sextetToChar
  rcases getD_mem_or_default b64Alphabet v 'A' with h | h
  · intro he
    rw [he] at h
    exact absurd h (by decide)
  · rw [h]; decide

theorem charToSextet_sextetToChar : ∀ v, v < 64 → charToSextet (sextetToChar v) = some v := by
  decide

theorem encode_chars : ∀ (b : List Nat), ∀ c ∈ b64EncodeGo b,
    isB64Char c = true ∧ c.isWhitespace = false
  | [], c, h => absurd h (by simp [b64EncodeGo])
  | [b0], c, h => by
    simp only [b64EncodeGo, List.mem_cons, List.not_mem_nil, or_false] at h
    rcases h with h | h | h | h <;> subst h
    · exact sextetToChar_valid _
    · exact sextetToChar_valid _
    · exact ⟨by decide, by decide⟩
    · exact ⟨by decide, by decide⟩
  | [b0, b1], c, h => by
    simp only [b64EncodeGo, List.mem_cons, List.not_mem_nil, or_false] at h
    rcases h with h | h | h | h <;> subst h
    · exact sextetToChar_valid _
    · exact sextetToChar_valid _
    · exact sextetToChar_valid _
    · exact ⟨by decide, by decide⟩
  | b0 :: b1 :: b2 :: rest, c, h => by
    simp only [b64EncodeGo, List.mem_cons] at h
    rcases h with h | h | h | h | h
    · subst h; exact sextetToChar_valid _
    · subst h; exact sextetToChar_valid _
    · subst h; exact sextetToChar_valid _
    · subst h; exact sextetToChar_valid _
    · exact encode_chars rest c h

theorem b64_roundtrip : ∀ (b : List Nat), (∀ x ∈ b, x < 256) →
    b64DecodeGo (b64EncodeGo b) = some b
  | [], _ => rfl
  | [b0], h => by
    have h0 : b0 < 256 := h b0 (by simp)
    have e1 := charToSextet_sextetToChar (b0 / 4) (by omega)
    have e2 := charToSextet_sextetToChar (b0 % 4 * 16) (by omega)
    simp only [b64EncodeGo, b64DecodeGo, e1, e2, if_pos rfl]
    simp only [and_self, if_true, reduceIte, Option.some.injEq, List.cons.injEq, and_true]
    omega
  | [b0, b1], h => by
    have h0 : b0 < 256 := h b0 (by simp)
    have h1 : b1 < 256 := h b1 (by simp)
    have e1 := charToSextet_sextetToChar (b0 / 4) (by omega)
    have e2 := charToSextet_sextetToChar (b0 % 4 * 16 + b1 / 16) (by omega)
    have e3 := charToSextet_sextetToChar (b1 % 16 * 4) (by omega)
    have ne3 := sextetToChar_ne_pad (b1 % 16 * 4)
    simp only [b64EncodeGo, b64DecodeGo, e1, e2, e3, if_neg ne3, if_pos rfl, and_self,
      reduceIte, Option.some.injEq, List.cons.injEq, and_true]
    omega
  | b0 :: b1 :: b2 :: rest, h => by
    have h0 : b0 < 256 := h b0 (by simp)
    have h1 : b1 < 256 := h b1 (by simp)
    have h2 : b2 < 256 := h b2 (by simp)
    have ih := b64_roundtrip rest (fun x hx => h x (by simp [hx]))
    have e1 := charToSextet_sextetToChar (b0 / 4) (by omega)
    have e2 := charToSextet_sextetToChar (b0 % 4 * 16 + b1 / 16) (by omega)
    have e3 := charToSextet_sextetToChar (b1 % 16 * 4 + b2 / 64) (by omega)
    have e4 := charToSextet_sextetToChar (b2 % 64) (by omega)
    have ne3 := sextetToChar_ne_pad (b1 % 16 * 4 + b2 / 64)
    have ne4 := sextetToChar_ne_pad (b2 % 64)
    simp only [b64EncodeGo, b64DecodeGo, e1, e2, e3, e4, if_neg ne3, if_neg ne4, ih,
      reduceIte, Option.map_some', Option.some.injEq, List.cons.injEq, and_true, and_self]
    omega

theorem dropWhile_of_none {p : Char → Bool} : ∀ (s : List Char), (∀ c ∈ s, p c = false) →
    s.dropWhile p = s
  | [], _ => rfl
  | a :: l, h => by
    have ha := h a (List.mem_cons_self a l)
    simp [List.dropWhile_cons, ha]

theorem pyStrip_id (s : List Char) (h : ∀ c ∈ s, c.isWhitespace = false) : pyStrip s = s := by
  unfold pyStrip
  rw [dropWhile_of_none s h]
  rw [dropWhile_of_none s.reverse (fun c hc => h c (List.mem_reverse.mp hc))]
  exact List.reverse_reverse s

theorem findB64_single (txt : List Char) (hne : txt ≠ []) (hs : pyStrip txt = txt)
    (hp : plausibleB64 txt = true) : findB64 [some txt] = some txt := by
  simp only [findB64, hs]
  rw [if_pos ⟨hne, hne⟩, if_pos hp]

theorem plausibleB64_encode (b : List Nat) (hl : 200 < (b64EncodeGo b).length) :
    plausibleB64 (b64EncodeGo b) = true := by
  simp only [plausibleB64, Bool.and_eq_true, decide_eq_true_eq, List.all_eq_true]
  exact ⟨hl, fun c hc => (encode_chars b c hc).1⟩

theorem Outcome.bindOkInv {α β : Type} {x : Outcome α} {f : α → Outcome β} {b : β}
    (h : Outcome.bind x f = Outcome.ok b) : ∃ a, x = Outcome.ok a ∧ f a = Outcome.ok b := by
  cases x with
  | ok a => exact ⟨a, rfl, h⟩
  | exit1 e => exact absurd h (by simp [Outcome.bind])
  | exception => exact absurd h (by simp [Outcome.bind])
  | incomplete => exact absurd h (by simp [Outcome.bind])

theorem discoverGo_append : ∀ (pre l : List TaskResp) (p s : Nat),
    (∀ r ∈ pre, r.lastReportIds = [] ∧
      ∃ t ts, r.statusTexts = t :: ts ∧ t ≠ "Stopped" ∧ t ≠ "Interrupted") →
    discoverGo (pre ++ l) p s = discoverGo l (p + pre.length) (s + pre.length)
  | [], l, p, s, _ => by simp
  | r :: pre, l, p, s, h => by
    obtain ⟨hrep, t, ts, hst, h1, h2⟩ := h r (List.mem_cons_self r pre)
    have ih := discoverGo_append pre l (p + 1) (s + 1)
      (fun x hx => h x (List.mem_cons_of_mem r hx))
    simp only [List.cons_append, discoverGo, hst, hrep, List.append_eq]
    rw [if_neg (not_or.mpr ⟨h1, h2⟩), ih, List.length_cons]
    have e1 : p + 1 + pre.length = p + (pre.length + 1) := by omega
    have e2 : s + 1 + pre.length = s + (pre.length + 1) := by omega
    rw [e1, e2]

theorem pollGo_append : ∀ (pre l : List TaskResp) (p s : Nat),
    (∀ r ∈ pre,
      (∃ t ts, r.statusTexts = t :: ts ∧ t ≠ "Done" ∧ t ≠ "Stopped" ∧ t ≠ "Interrupted") ∧
      ∃ q qs, r.progressTexts = q :: qs) →
    pollGo (pre ++ l) p s = pollGo l (p + pre.length) (s + pre.length)
  | [], l, p, s, _ => by simp
  | r :: pre, l, p, s, h => by
    obtain ⟨⟨t, ts, hst, h1, h2, h3⟩, q, qs, hpg⟩ := h r (List.mem_cons_self r pre)
    have ih := pollGo_append pre l (p + 1) (s + 1)
      (fun x hx => h x (List.mem_cons_of_mem r hx))
    simp only [List.cons_append, pollGo, hst, hpg, List.append_eq]
    rw [if_neg (by simp [h1, h2, h3]), ih, List.length_cons]
    have e1 : p + 1 + pre.length = p + (pre.length + 1) := by omega
    have e2 : s + 1 + pre.length = s + (pre.length + 1) := by omega
    rw [e1, e2]

/-! ### Claim theorems -/

/-- C1: report-id discovery.  With a start_task response carrying no
report id, and get_task responses whose first N have no last-report
reference and a status other than Stopped and Interrupted: when the
(N+1)-th response carries a last-report id, discovery exits successfully
at exactly N+1 get_task calls with N sleeps, returning that id; when the
(N+1)-th response has status Stopped or Interrupted and still no
last-report, discovery exits 1 with TaskStoppedBeforeReport at N+1 calls,
without sleeping again (still N sleeps). -/
theorem c1_report_id_discovery
    (pre tail : List TaskResp) (last : TaskResp) (s : String) (ss : List String)
    (hpre : ∀ r ∈ pre, r.lastReportIds = [] ∧
      ∃ t ts, r.statusTexts = t :: ts ∧ t ≠ "Stopped" ∧ t ≠ "Interrupted")
    (hst : last.statusTexts = s :: ss) :
    (∀ rid rs, last.lastReportIds = rid :: rs →
      discoverGo (pre ++ last :: tail) 0 0 =
        DiscResult.found rid (pre.length + 1) pre.length ∧
      discoverOut [] (pre ++ last :: tail) = Outcome.ok rid) ∧
    (last.lastReportIds = [] → (s = "Stopped" ∨ s = "Interrupted") →
      discoverGo (pre ++ last :: tail) 0 0 =
        DiscResult.stopped (pre.length + 1) pre.length ∧
      discoverOut [] (pre ++ last :: tail) =
        Outcome.exit1 Err.taskStoppedBeforeReport) := by
  have key := discoverGo_append pre (last :: tail) 0 0 hpre
  constructor
  · intro rid rs hrep
    have hd : discoverGo (pre ++ last :: tail) 0 0 =
        DiscResult.found rid (pre.length + 1) pre.length := by
      rw [key]
      simp only [discoverGo, hst, hrep, Nat.zero_add]
    exact ⟨hd, by simp only [discoverOut, hd]⟩
  · intro hrep hterm
    have hd : discoverGo (pre ++ last :: tail) 0 0 =
        DiscResult.stopped (pre.length + 1) pre.length := by
      rw [key]
      simp only [discoverGo, hst, hrep, Nat.zero_add]
      rw [if_pos hterm]
    exact ⟨hd, by simp only [discoverOut, hd]⟩

/-- Closed instance of C1: one Requested response with no last-report,
then a response carrying report id r9 (discovery succeeds at poll 2 after
1 sleep), versus a second response Stopped with no last-report (discovery
fails at poll 2 after 1 sleep). -/
theorem c1_report_id_discovery_witness :
    discoverGo [⟨["Requested"], [], []⟩, ⟨["Running"], [], ["r9"]⟩] 0 0 =
      DiscResult.found "r9" 2 1 ∧
    discoverOut [] [⟨["Requested"], [], []⟩, ⟨["Stopped"], [], []⟩] =
      Outcome.exit1 Err.taskStoppedBeforeReport := by
  constructor
  · exact ((c1_report_id_discovery [⟨["Requested"], [], []⟩] [] ⟨["Running"], [], ["r9"]⟩
      "Running" []
      (by intro r hr
          rw [List.mem_singleton] at hr
          subst hr
          exact ⟨rfl, "Requested", [], rfl, by decide, by decide⟩)
      rfl).1 "r9" [] rfl).1
  · exact ((c1_report_id_discovery [⟨["Requested"], [], []⟩] [] ⟨["Stopped"], [], []⟩
      "Stopped" []
      (by intro r hr
          rw [List.mem_singleton] at hr
          subst hr
          exact ⟨rfl, "Requested", [], rfl, by decide, by decide⟩)
      rfl).2 rfl (Or.inl rfl)).2

/-- C2: port-list fallback widening.  In run_openvas_scan.py an empty
filtered lookup falls back to the unfiltered lookup and succeeds with its
first id, and only when both are empty does the run exit 1 with
NoPortListsAvailable — as the claim states.  In hoge.py the same input
(filtered empty, unfiltered non-empty) exits 1 anyway, because the
fallback stores the re-read ids in a misspelled variable and tests the
stale filtered list: the claim describes the intent, hoge.py the slip. -/
theorem c2_portlist_fallback :
    (∀ (i : String) (rest : List String), resolvePortList [] (i :: rest) = Outcome.ok i) ∧
    resolvePortList [] [] = Outcome.exit1 Err.noPortLists ∧
    resolvePortList_hoge [] ["pl1"] = Outcome.exit1 Err.noPortLists :=
  ⟨fun _ _ => rfl, rfl, rfl⟩

/-- C3 counterexample: a filtered target lookup returning two matches
with ids a and b makes the resolver return b — the id of the LAST match,
not of the first as the claim states. -/
theorem c3_counterexample :
    resolveTarget [some "a", some "b"] none = Outcome.ok ("b", false) ∧
    Outcome.ok (("b", false) : String × Bool) ≠ Outcome.ok (("a", false) : String × Bool) :=
  ⟨rfl, by decide⟩

/-- C3 amended: when the filtered lookup yields at least one match, the
port-list resolver selects the FIRST result and the target resolver the
LAST result (whose id must be non-empty), each deterministically with no
client-side re-sorting, returning the id without creating a new object
(the created flag is false). -/
theorem c3_resolution_amended :
    (∀ (i : String) (rest unf : List String), resolvePortList (i :: rest) unf = Outcome.ok i) ∧
    (∀ (pre : List (Option String)) (s : String) (c : Option String), s ≠ "" →
      resolveTarget (pre ++ [some s]) c = Outcome.ok (s, false)) := by
  constructor
  · intro i rest unf; rfl
  · intro pre s c hs
    simp only [resolveTarget, List.foldl_append, List.foldl_cons, List.foldl_nil]
    rw [if_neg hs]

/-- Closed instance of C3 amended: two port lists resolve to the first,
two targets resolve to the last, with no creation. -/
theorem c3_resolution_amended_witness :
    resolvePortList ["p1", "p2"] [] = Outcome.ok "p1" ∧
    resolveTarget ([some "a"] ++ [some "b"]) none = Outcome.ok ("b", false) :=
  ⟨c3_resolution_amended.1 "p1" ["p2"] [],
   c3_resolution_amended.2 [some "a"] "b" none (by decide)⟩

set_option maxRecDepth 8000 in
/-- C4: the base64-plausibility predicate holds exactly when the length
exceeds 200 and every character is alphanumeric or one of plus, slash,
equals; 199 valid characters are rejected, 201 valid characters are
accepted, and 201 characters containing one space are rejected. -/
theorem c4_plausibility :
    (∀ s : List Char, plausibleB64 s = true ↔
      (200 < s.length ∧ ∀ c ∈ s, (c.isAlphanum = true ∨ c = '+' ∨ c = '/' ∨ c = '='))) ∧
    plausibleB64 (List.replicate 199 'A') = false ∧
    plausibleB64 (List.replicate 201 'A') = true ∧
    plausibleB64 (' ' :: List.replicate 200 'A') = false := by
  refine ⟨?_, by decide, by decide, by decide⟩
  intro s
  simp only [plausibleB64, Bool.and_eq_true, decide_eq_true_eq, List.all_eq_true, isB64Char,
    Bool.or_eq_true, beq_iff_eq, or_assoc]

/-- C5 counterexample: for the single byte 0, the base64 encoding is the
four characters AA==, far below the 200-character plausibility threshold,
so the PDF extraction path fails with NoBase64PayloadFound instead of
returning the byte — the round trip does not hold for every byte
sequence. -/
theorem c5_counterexample :
    b64EncodeGo [0] = ['A', 'A', '=', '='] ∧
    extractPdf [some (b64EncodeGo [0])] = Outcome.exit1 Err.noBase64Payload ∧
    Outcome.exit1 Err.noBase64Payload ≠ Outcome.ok ([0] : List Nat) :=
  ⟨rfl, rfl, by decide⟩

/-- C5 amended: for every byte sequence whose base64 encoding is longer
than 200 characters, placing the encoding as the text of a report node
and running the PDF extraction path (plausibility scan, then base64
decode) yields exactly the original bytes. -/
theorem c5_pdf_roundtrip (b : List Nat) (hb : ∀ x ∈ b, x < 256)
    (hl : 200 < (b64EncodeGo b).length) :
    extractPdf [some (b64EncodeGo b)] = Outcome.ok b := by
  have hsp : pyStrip (b64EncodeGo b) = b64EncodeGo b :=
    pyStrip_id _ (fun c hc => (encode_chars b c hc).2)
  have hne : b64EncodeGo b ≠ [] := by
    intro he
    rw [he] at hl
    exact absurd hl (by decide)
  have hf := findB64_single (b64EncodeGo b) hne hsp (plausibleB64_encode b hl)
  simp only [extractPdf, hf, b64_roundtrip b hb]

set_option maxRecDepth 8000 in
/-- Closed instance of C5 amended: 153 zero bytes encode to 204
characters of base64 and extract back to the same 153 bytes. -/
theorem c5_pdf_roundtrip_witness :
    extractPdf [some (b64EncodeGo (List.replicate 153 0))] =
      Outcome.ok (List.replicate 153 0) :=
  c5_pdf_roundtrip (List.replicate 153 0)
    (by intro x hx
        rw [List.eq_of_mem_replicate hx]
        omega)
    (by decide)

/-- C6: the status poller exits its loop exactly when the fetched status
is Done, Stopped or Interrupted, sleeping and re-fetching otherwise (a
prefix of N well-formed non-terminal snapshots followed by a terminal one
makes it stop at fetch N+1 after N sleeps, whichever of the three the
terminal status is); and whenever the poll loop ends in a terminal
status, the run continues with the report fetch stage regardless of
which terminal status was reached. -/
theorem c6_terminal_poll :
    (∀ (pre tail : List TaskResp) (last : TaskResp) (s p : String) (ss pp : List String),
      (∀ r ∈ pre,
        (∃ t ts, r.statusTexts = t :: ts ∧ t ≠ "Done" ∧ t ≠ "Stopped" ∧ t ≠ "Interrupted") ∧
        ∃ q qs, r.progressTexts = q :: qs) →
      last.statusTexts = s :: ss → last.progressTexts = p :: pp →
      (s = "Done" ∨ s = "Stopped" ∨ s = "Interrupted") →
      pollGo (pre ++ last :: tail) 0 0 =
        PollResult.terminal s (pre.length + 1) pre.length) ∧
    (∀ (dir : String) (o : Oracle) (s : String) (n k : Nat),
      pollGo o.pollResps 0 0 = PollResult.terminal s n k →
      runScan dir o = Outcome.bind (preReportStages o) (reportStage dir o)) := by
  constructor
  · intro pre tail last s p ss pp hpre hst hpg hterm
    rw [pollGo_append pre (last :: tail) 0 0 hpre]
    simp only [pollGo, hst, hpg, Nat.zero_add]
    rw [if_pos hterm]
  · intro dir o s n k hp
    simp only [runScan, pollOut, hp, Outcome.bind]

/-- Closed instance of C6: a Running snapshot then a Stopped one make the
poller stop at fetch 2 after 1 sleep, and under the oracle oW (whose poll
stream ends Stopped) the run still proceeds to the report stage. -/
theorem c6_terminal_poll_witness :
    pollGo [⟨["Running"], ["10"], []⟩, ⟨["Stopped"], ["55"], []⟩] 0 0 =
      PollResult.terminal "Stopped" 2 1 ∧
    runScan "d" oW = Outcome.bind (preReportStages oW) (reportStage "d" oW) := by
  constructor
  · exact c6_terminal_poll.1 [⟨["Running"], ["10"], []⟩] [] ⟨["Stopped"], ["55"], []⟩
      "Stopped" "55" [] []
      (by intro r hr
          rw [List.mem_singleton] at hr
          subst hr
          exact ⟨⟨"Running", [], rfl, by decide, by decide, by decide⟩, "10", [], rfl⟩)
      rfl rfl (Or.inr (Or.inl rfl))
  · exact c6_terminal_poll.2 "d" oW "Stopped" 2 1 rfl

/-- C7: atomicity of output.  For every oracle, a run either succeeds,
returning the single output file {dir}/{report_id}.pdf with its decoded
bytes and writing exactly that one file, or it stops with a specific
exit-1 failure, an unhandled exception, or an unfinished polling loop —
and in each of those cases no output file is written at all. -/
theorem c7_atomic_output (dir : String) (o : Oracle) :
    (∃ rid bytes, runScan dir o = Outcome.ok (dir ++ "/" ++ rid ++ ".pdf", bytes) ∧
      runWrites dir o = [(dir ++ "/" ++ rid ++ ".pdf", bytes)]) ∨
    ((∃ e, runScan dir o = Outcome.exit1 e) ∧ runWrites dir o = []) ∨
    (runScan dir o = Outcome.exception ∧ runWrites dir o = []) ∨
    (runScan dir o = Outcome.incomplete ∧ runWrites dir o = []) := by
  cases hr : runScan dir o with
  | ok fb =>
    left
    have hr' : Outcome.bind (preReportStages o) (fun rid =>
        Outcome.bind (pollOut o.pollResps) (fun _ => reportStage dir o rid)) =
        Outcome.ok fb := hr
    obtain ⟨rid, hrid, h2⟩ := Outcome.bindOkInv hr'
    obtain ⟨st, hst, h3⟩ := Outcome.bindOkInv h2
    have h3' : Outcome.bind (extractPdf (o.reportNodes.map ReportNode.text)) (fun bytes =>
        Outcome.ok (dir ++ "/" ++ rid ++ ".pdf", bytes)) = Outcome.ok fb := h3
    obtain ⟨bytes, hby, h4⟩ := Outcome.bindOkInv h3'
    have hfb : fb = (dir ++ "/" ++ rid ++ ".pdf", bytes) :=
      (Outcome.ok.inj h4).symm
    subst hfb
    exact ⟨rid, bytes, rfl, by simp only [runWrites, hr]⟩
  | exit1 e =>
    right; left
    exact ⟨⟨e, rfl⟩, by simp only [runWrites, hr]⟩
  | exception =>
    right; right; left
    exact ⟨rfl, by simp only [runWrites, hr]⟩
  | incomplete =>
    right; right; right
    exact ⟨rfl, by simp only [runWrites, hr]⟩

/-- C9: unguarded indexing of XPath results.  A get_task response with no
task/status text node makes both the report-id-discovery loop and the
status-polling loop end in an unhandled exception on its first read, as
does a response with a status but no task/progress text node in the
status loop; an unhandled exception is a distinct outcome from every
taxonomy exit-1 failure. -/
theorem c9_unguarded_indexing :
    (∀ (tail : List TaskResp) (pg rep : List String),
      discoverGo (⟨[], pg, rep⟩ :: tail) 0 0 = DiscResult.exception 1) ∧
    (∀ (tail : List TaskResp) (pg rep : List String),
      pollGo (⟨[], pg, rep⟩ :: tail) 0 0 = PollResult.exception 1) ∧
    (∀ (tail : List TaskResp) (s : String) (ss rep : List String),
      pollGo (⟨s :: ss, [], rep⟩ :: tail) 0 0 = PollResult.exception 1) ∧
    (∀ e : Err, (Outcome.exception : Outcome (String × List Nat)) ≠ Outcome.exit1 e) :=
  ⟨fun _ _ _ => rfl, fun _ _ _ => rfl, fun _ _ _ _ => rfl,
   fun _ h => Outcome.noConfusion h⟩

set_option maxRecDepth 8000 in
/-- C10: the two PDF extraction procedures are not equivalent.  For a
get_report response with a single report node whose text is 204 letters
A, the plausibility-scan extraction of run_openvas_scan.py decodes it to
153 zero bytes, while the JVBER-search extraction of hoge.py fails to
find any payload. -/
theorem c10_extract_inequivalence :
    ∃ ns : List ReportNode,
      extractPdf (ns.map ReportNode.text) = Outcome.ok (List.replicate 153 0) ∧
      extractPdf_hoge ns = Outcome.exit1 Err.noBase64Payload :=
  ⟨[⟨some (List.replicate 204 'A'), List.replicate 204 'A'⟩], by decide, by decide⟩
